import Mathlib

/-!
Verification development for the LMS303 accelerometer/magnetometer/thermometer
driver (`src/imu/src/LMS303.cpp`).  The C++ class is shallowly embedded:

* the raw register snapshot (`dataBuffer`) and the FIFO buffer (`accelFIFO`)
  become total functions `Nat → Nat` whose values are masked to bytes at every
  point where the C++ code reads a `char` (on the ARM target `char` is
  unsigned);
* `short` arithmetic is modelled on `Nat`/`Int` with explicit reduction
  modulo 2 ^ 16 (`toInt16`, `twosNeg16`);
* `float`/`double` arithmetic on register counts and scale factors is
  idealised as exact rational arithmetic, and the transcendental pitch/roll
  computation as exact real arithmetic, with the IEEE behaviour of
  `atan(x / 0) = ±π/2` made explicit (`atanIEEE`);
* the I2C transport is an environment: a register-map image `regs` and a FIFO
  byte stream `fifo` describe the bytes a burst read deposits, and for the
  transport-level functions a record of step outcomes (`open`/`ioctl`/
  `write`/`read` success) drives the control flow, with the model tracking
  whether the file handle was opened and whether it was closed.
-/

namespace LMS303

/-- Modelled from the spec: the register addresses and buffer sizes come from
the device header `imu/LMS303.h`, which is not among the analysed sources.
The values follow the datasheet layout the spec describes (magnetometer
block at `0x00`–`0x0E`, identity register, accelerometer output block,
FIFO control and source registers, 32-slot FIFO of 6-byte entries). -/
def REG_TEMP_OUT_L : Nat := 0x05

def REG_TEMP_OUT_H : Nat := 0x06

def REG_OUT_X_L_M : Nat := 0x08

def REG_OUT_X_H_M : Nat := 0x09

def REG_OUT_Y_L_M : Nat := 0x0A

def REG_OUT_Y_H_M : Nat := 0x0B

def REG_OUT_Z_L_M : Nat := 0x0C

def REG_OUT_Z_H_M : Nat := 0x0D

def REG_WHO_AM_I : Nat := 0x0F

def REG_INT_CTRL_M : Nat := 0x12

def REG_CTRL0 : Nat := 0x1F

def REG_CTRL1 : Nat := 0x20

def REG_CTRL2 : Nat := 0x21

def REG_CTRL5 : Nat := 0x24

def REG_CTRL6 : Nat := 0x25

def REG_CTRL7 : Nat := 0x26

def REG_STATUS_A : Nat := 0x27

def REG_OUT_X_L_A : Nat := 0x28

def REG_OUT_X_H_A : Nat := 0x29

def REG_OUT_Y_L_A : Nat := 0x2A

def REG_OUT_Y_H_A : Nat := 0x2B

def REG_OUT_Z_L_A : Nat := 0x2C

def REG_OUT_Z_H_A : Nat := 0x2D

def REG_FIFO_CTRL : Nat := 0x2E

def REG_FIFO_SRC : Nat := 0x2F

def LMS303_I2C_BUFFER : Nat := 0x40

def ACCEL_FIFO_SIZE : Nat := 192

/-- Modelled from the spec: the FIFO-mode enumeration from `imu/LMS303.h`
(Bypass, Stream, Error). -/
inductive LMS303_ACCEL_FIFO_MODE where
  | ACCEL_FIFO_BYPASS
  | ACCEL_FIFO_STREAM
  | ACCEL_FIFO_ERROR
deriving DecidableEq

/-- Modelled from the spec: the accelerometer-scale enumeration from
`imu/LMS303.h`.  The five valid selectors are ±2/4/6/8/16 g; the extra
constructor stands for any integer outside the valid enum values, which the
C++ `switch` sends to its `default` branch. -/
inductive LMS303_ACCEL_SCALE where
  | SCALE_ACCEL_2g
  | SCALE_ACCEL_4g
  | SCALE_ACCEL_6g
  | SCALE_ACCEL_8g
  | SCALE_ACCEL_16g
  | SCALE_ACCEL_INVALID
deriving DecidableEq

/-- Modelled from the spec: the magnetometer-scale enumeration from
`imu/LMS303.h`.  The four valid selectors are ±2/4/8/12 gauss; the extra
constructor stands for any out-of-range input (the `switch` default). -/
inductive LMS303_MAG_SCALE where
  | SCALE_MAG_2gauss
  | SCALE_MAG_4gauss
  | SCALE_MAG_8gauss
  | SCALE_MAG_12gauss
  | SCALE_MAG_INVALID
deriving DecidableEq

/-- The mutable fields of the C++ `LMS303` object that the analysed
operations touch.  `pitch` and `roll` are reals (they pass through `atan`);
all other converted quantities are exact rationals. -/
structure LMS303State where
  dataBuffer : Nat → Nat
  accelFIFO : Nat → Nat
  accelX : ℚ
  accelY : ℚ
  accelZ : ℚ
  magX : ℚ
  magY : ℚ
  magZ : ℚ
  celsius : ℚ
  pitch : ℝ
  roll : ℝ
  accelScale : ℚ
  magScale : ℚ
  accelFIFOMode : LMS303_ACCEL_FIFO_MODE

/-- The bytes the I2C transport delivers during one poll: `regs a` is the
byte a burst read deposits for register-map address `a`, and `fifo i` is the
`i`-th byte of the accelerometer FIFO burst (which streams FIFO slots rather
than plain registers). -/
structure BusEnv where
  regs : Nat → Nat
  fifo : Nat → Nat

/-- A state with every field zeroed, used as a concrete base point. -/
def initState : LMS303State where
  dataBuffer := fun _ => 0
  accelFIFO := fun _ => 0
  accelX := 0
  accelY := 0
  accelZ := 0
  magX := 0
  magY := 0
  magZ := 0
  celsius := 0
  pitch := 0
  roll := 0
  accelScale := 0
  magScale := 0
  accelFIFOMode := LMS303_ACCEL_FIFO_MODE.ACCEL_FIFO_BYPASS

/-- Reinterpret a 16-bit pattern as a signed C++ `short`. -/
def toInt16 (n : Nat) : Int :=
  if n % 65536 < 32768 then (n % 65536 : Nat) else (n % 65536 : Nat) - 65536

/-- 16-bit two's-complement negation: `~v + 1` on a C++ `short`,
i.e. bitwise complement over 16 bits followed by increment, modulo 2 ^ 16. -/
def twosNeg16 (n : Nat) : Nat :=
  (((n % 65536) ^^^ 0xFFFF) + 1) % 65536

/-- `readI2CDevice(address, &buf[address], size)`: the burst read deposits
the transport's bytes for addresses `address ≤ i < address + size` into the
buffer, leaving all other buffer cells untouched. -/
def busFill (bus buf : Nat → Nat) (address size : Nat) : Nat → Nat :=
  fun i => if address ≤ i ∧ i < address + size then bus i % 256 else buf i

/-! ## Transport level: `writeI2CDeviceByte` / `readI2CDevice` -/

/-- The outcome of each step of one transport call: whether `open` returns a
valid descriptor, whether the `ioctl` address select succeeds, whether the
`write` transfers the requested bytes, and whether the `read` delivers the
requested count. -/
structure I2CCallEnv where
  openOk : Bool
  ioctlOk : Bool
  writeOk : Bool
  readOk : Bool

/-- What one transport call did: the `int` it returned, whether a descriptor
was successfully opened during the call, and whether `close` ran on it
before returning. -/
structure I2CCallResult where
  ret : Int
  opened : Bool
  closed : Bool
deriving DecidableEq

/-- `LMS303::writeI2CDeviceByte`: open the bus device, select the slave
address via `ioctl`, write the two-byte frame `[register, value]`.  The three
failure branches return 1/2/3 respectively; only the fall-through success
path executes `close(file)`.  The data payload is irrelevant to the resource
behaviour and is not modelled. -/
def writeI2CDeviceByte (env : I2CCallEnv) : I2CCallResult :=
  if env.openOk = false then { ret := 1, opened := false, closed := false }
  else if env.ioctlOk = false then { ret := 2, opened := true, closed := false }
  else if env.writeOk = false then { ret := 3, opened := true, closed := false }
  else { ret := 0, opened := true, closed := true }

/-- `LMS303::readI2CDevice`: open the bus device, select the slave address,
write the (possibly burst-flagged) register address, read `size` bytes.  Open
and address-select failures return 1/2 without closing; a failed address
write or a short read only logs an error, after which the function closes the
descriptor and returns 0 regardless. -/
def readI2CDevice (env : I2CCallEnv) : I2CCallResult :=
  if env.openOk = false then { ret := 1, opened := false, closed := false }
  else if env.ioctlOk = false then { ret := 2, opened := true, closed := false }
  else { ret := 0, opened := true, closed := true }

/-! ## Conversion helpers -/

/-- `LMS303::getTemperature`: combine the two temperature bytes into a
`short`, test bit 11, XOR with `0x0FFF` (negative branch) or mask with
`0x0FFF` (non-negative branch), and return `sign * (temp / 8.0) + 25`. -/
def getTemperature (buf : Nat → Nat) : ℚ :=
  let raw := ((buf REG_TEMP_OUT_H % 256) <<< 8) ||| (buf REG_TEMP_OUT_L % 256)
  if raw &&& 0x0800 ≠ 0 then
    (-1) * ((toInt16 (raw ^^^ 0x0FFF) : ℚ) / 8) + 25
  else
    ((toInt16 (raw &&& 0x0FFF) : ℚ) / 8) + 25

/-- `LMS303::convertMagnetism(msb, lsb)`: `(buf[msb] << 8) | buf[lsb]` as a
signed `short`, times the magnetic scale factor. -/
def convertMagnetism (buf : Nat → Nat) (msb lsb : Nat) (scale : ℚ) : ℚ :=
  (toInt16 (((buf msb % 256) <<< 8) ||| (buf lsb % 256)) : ℚ) * scale

/-- `LMS303::convertAcceleration(int accel)`: raw count times the
acceleration scale factor. -/
def convertAcceleration (accel : Int) (scale : ℚ) : ℚ :=
  (accel : ℚ) * scale

/-- `LMS303::convertAcceleration(msb, lsb)`: `(buf[msb] << 8) | buf[lsb]` as
a signed `short`, times the acceleration scale factor. -/
def convertAccelerationPair (buf : Nat → Nat) (msb lsb : Nat) (scale : ℚ) : ℚ :=
  (toInt16 (((buf msb % 256) <<< 8) ||| (buf lsb % 256)) : ℚ) * scale

/-- The C `atan(num / den)` on IEEE doubles: division by a zero denominator
yields `±∞`, whose arctangent is `±π/2`.  The `0/0` (NaN) case, which the
spec calls a degenerate input, is left at 0. -/
noncomputable def atanIEEE (num den : ℝ) : ℝ :=
  if den = 0 then
    (if 0 < num then Real.pi / 2 else if num < 0 then -(Real.pi / 2) else 0)
  else Real.arctan (num / den)

/-- `LMS303::calculatePitchAndRoll`:
`pitch = 180 * atan(x / sqrt(y*y + z*z)) / π` and
`roll = 180 * atan(y / sqrt(x*x + z*z)) / π` from the current acceleration
components. -/
noncomputable def calculatePitchAndRoll (st : LMS303State) : LMS303State :=
  { st with
    pitch := 180 * atanIEEE (st.accelX : ℝ)
      (Real.sqrt ((st.accelY : ℝ) * (st.accelY : ℝ) + (st.accelZ : ℝ) * (st.accelZ : ℝ))) / Real.pi
    roll := 180 * atanIEEE (st.accelY : ℝ)
      (Real.sqrt ((st.accelX : ℝ) * (st.accelX : ℝ) + (st.accelZ : ℝ) * (st.accelZ : ℝ))) / Real.pi }

/-! ## FIFO reading and averaging -/

/-- One FIFO axis sample as `averageAccelFIFO` decodes it: the 16-bit value
`(fifo[lo+1] << 8) | fifo[lo]`, then `~temp + 1` on the `short`, then the
`(int)` sign extension. -/
def fifoSample (fifo : Nat → Nat) (lo : Nat) : Int :=
  toInt16 (twosNeg16 (((fifo (lo + 1) % 256) <<< 8) ||| (fifo lo % 256)))

/-- The running sums of the `averageAccelFIFO` loop after `n` iterations:
X, Y and Z samples of slot `i` live at byte offsets `i*6`, `i*6+2` and
`i*6+4`. -/
def fifoSums (fifo : Nat → Nat) : Nat → Int × Int × Int
  | 0 => (0, 0, 0)
  | n + 1 =>
    let s := fifoSums fifo n
    (s.1 + fifoSample fifo (n * 6),
     s.2.1 + fifoSample fifo (n * 6 + 2),
     s.2.2 + fifoSample fifo (n * 6 + 4))

/-- `LMS303::averageAccelFIFO(slots)`: reject `slots <= 0` with return value
1; otherwise sum the decoded samples of the first `slots` FIFO entries per
axis, divide each sum by `slots` with C `int` division (truncation toward
zero), scale, and store into `accelX`/`accelY`/`accelZ`. -/
def averageAccelFIFO (st : LMS303State) (slots : Int) : Int × LMS303State :=
  if slots ≤ 0 then (1, st)
  else
    let s := fifoSums st.accelFIFO slots.toNat
    (0, { st with
      accelX := convertAcceleration (Int.tdiv s.1 slots) st.accelScale
      accelY := convertAcceleration (Int.tdiv s.2.1 slots) st.accelScale
      accelZ := convertAcceleration (Int.tdiv s.2.2 slots) st.accelScale })

/-- `LMS303::readAccelFIFO`: read the FIFO source register, mask to the low
four bits, burst-read the full fixed-capacity FIFO block into `accelFIFO`,
and return the masked count plus one. -/
def readAccelFIFO (st : LMS303State) (env : BusEnv) : Int × LMS303State :=
  let count := env.regs REG_FIFO_SRC % 256 &&& 0x0F
  ((count : Int) + 1,
   { st with accelFIFO := fun i =>
      if i < ACCEL_FIFO_SIZE then env.fifo i % 256 else st.accelFIFO i })

/-! ## The poll: `readFullSensorState` -/

/-- The stream-mode half of `readFullSensorState`: the four split burst
reads into `dataBuffer`, then the FIFO drain and average (whose return value
the source discards). -/
def streamPoll (st : LMS303State) (env : BusEnv) : LMS303State :=
  let b1 := busFill env.regs st.dataBuffer REG_TEMP_OUT_L (REG_OUT_Z_H_M - REG_TEMP_OUT_L + 1)
  let b2 := busFill env.regs b1 REG_WHO_AM_I 1
  let b3 := busFill env.regs b2 REG_INT_CTRL_M (REG_STATUS_A - REG_INT_CTRL_M + 1)
  let b4 := busFill env.regs b3 REG_FIFO_CTRL (LMS303_I2C_BUFFER - REG_FIFO_CTRL)
  let r := readAccelFIFO { st with dataBuffer := b4 } env
  (averageAccelFIFO r.2 r.1).2

/-- The bypass-mode half of `readFullSensorState`: one burst read from the
identity register to the end of the map, then direct conversion of the three
accelerometer register pairs. -/
def bypassPoll (st : LMS303State) (env : BusEnv) : LMS303State :=
  let b := busFill env.regs st.dataBuffer REG_WHO_AM_I (LMS303_I2C_BUFFER - REG_WHO_AM_I)
  { st with
    dataBuffer := b
    accelX := convertAccelerationPair b REG_OUT_X_H_A REG_OUT_X_L_A st.accelScale
    accelY := convertAccelerationPair b REG_OUT_Y_H_A REG_OUT_Y_L_A st.accelScale
    accelZ := convertAccelerationPair b REG_OUT_Z_H_A REG_OUT_Z_L_A st.accelScale }

/-- The tail of `readFullSensorState` shared by both modes: the WHO_AM_I
check (mismatch returns 1 immediately), then temperature, magnetism and
pitch/roll updates, then return 0. -/
noncomputable def pollFinish (st : LMS303State) : Int × LMS303State :=
  if st.dataBuffer REG_WHO_AM_I ≠ 0x49 then (1, st)
  else
    (0, calculatePitchAndRoll { st with
      celsius := getTemperature st.dataBuffer
      magX := convertMagnetism st.dataBuffer REG_OUT_X_H_M REG_OUT_X_L_M st.magScale
      magY := convertMagnetism st.dataBuffer REG_OUT_Y_H_M REG_OUT_Y_L_M st.magScale
      magZ := convertMagnetism st.dataBuffer REG_OUT_Z_H_M REG_OUT_Z_L_M st.magScale })

/-- `LMS303::readFullSensorState`: branch on the cached FIFO mode for the
read strategy, then run the shared validation/conversion tail. -/
noncomputable def readFullSensorState (st : LMS303State) (env : BusEnv) : Int × LMS303State :=
  pollFinish
    (if st.accelFIFOMode = LMS303_ACCEL_FIFO_MODE.ACCEL_FIFO_STREAM
     then streamPoll st env else bypassPoll st env)

/-! ## Configuration operations -/

/-- `LMS303::enableTempSensor`: the value written back to `REG_CTRL5` given
the byte `ctrl5` read from it, namely `ctrl5 | 0x80` (set the TEMP_EN
bit). -/
def enableTempSensor (ctrl5 : Nat) : Nat :=
  (ctrl5 % 256) ||| 0x80

/-- `LMS303::setAccelScale`: the control-register write happens first; its
outcome is `writeOk` (the written bit pattern itself depends only on header
constants and does not feed back into the state).  On write failure the
scale is zeroed and 1 returned; otherwise the `switch` stores the calibrated
constant, with the `default` branch zeroing the scale and returning 1. -/
def setAccelScale (st : LMS303State) (scale : LMS303_ACCEL_SCALE) (writeOk : Bool) :
    Int × LMS303State :=
  if writeOk = false then (1, { st with accelScale := 0 })
  else
    match scale with
    | LMS303_ACCEL_SCALE.SCALE_ACCEL_2g => (0, { st with accelScale := 61 / 1000000 })
    | LMS303_ACCEL_SCALE.SCALE_ACCEL_4g => (0, { st with accelScale := 122 / 1000000 })
    | LMS303_ACCEL_SCALE.SCALE_ACCEL_6g => (0, { st with accelScale := 183 / 1000000 })
    | LMS303_ACCEL_SCALE.SCALE_ACCEL_8g => (0, { st with accelScale := 244 / 1000000 })
    | LMS303_ACCEL_SCALE.SCALE_ACCEL_16g => (0, { st with accelScale := 732 / 1000000 })
    | LMS303_ACCEL_SCALE.SCALE_ACCEL_INVALID => (1, { st with accelScale := 0 })

/-- `LMS303::setMagScale`: same structure as `setAccelScale`, with the four
magnetometer constants. -/
def setMagScale (st : LMS303State) (scale : LMS303_MAG_SCALE) (writeOk : Bool) :
    Int × LMS303State :=
  if writeOk = false then (1, { st with magScale := 0 })
  else
    match scale with
    | LMS303_MAG_SCALE.SCALE_MAG_2gauss => (0, { st with magScale := 8 / 100000 })
    | LMS303_MAG_SCALE.SCALE_MAG_4gauss => (0, { st with magScale := 16 / 100000 })
    | LMS303_MAG_SCALE.SCALE_MAG_8gauss => (0, { st with magScale := 32 / 100000 })
    | LMS303_MAG_SCALE.SCALE_MAG_12gauss => (0, { st with magScale := 479 / 1000000 })
    | LMS303_MAG_SCALE.SCALE_MAG_INVALID => (1, { st with magScale := 0 })

/-- `LMS303::getAccelFIFOMode`: decode the byte read from `REG_FIFO_CTRL`
(`0x00` is Bypass, `0x40` is Stream, anything else is Error). -/
def getAccelFIFOMode (fifoCtrl : Nat) : LMS303_ACCEL_FIFO_MODE :=
  if fifoCtrl % 256 = 0x00 then LMS303_ACCEL_FIFO_MODE.ACCEL_FIFO_BYPASS
  else if fifoCtrl % 256 = 0x40 then LMS303_ACCEL_FIFO_MODE.ACCEL_FIFO_STREAM
  else LMS303_ACCEL_FIFO_MODE.ACCEL_FIFO_ERROR

/-- `LMS303::setAccelFIFOMode`: after writing the mode bits to the device,
the function reads the mode back (`readBack` is the byte that read
delivers); on mismatch it only logs, on match it caches the requested mode;
either way it returns 0.  The register writes themselves leave the modelled
state untouched. -/
def setAccelFIFOMode (st : LMS303State) (mode : LMS303_ACCEL_FIFO_MODE) (readBack : Nat) :
    Int × LMS303State :=
  if getAccelFIFOMode readBack ≠ mode then (0, st)
  else (0, { st with accelFIFOMode := mode })

/-! ## Helper lemmas -/

/-- Combining a high byte shifted left by eight with a low byte below 256 is
plain positional arithmetic. -/
theorem shiftLeft_or_eq_add (h l : Nat) (hl : l < 256) :
    (h <<< 8) ||| l = h * 256 + l := by
  have h256 : (256 : Nat) = 2 ^ 8 := by norm_num
  rw [Nat.shiftLeft_eq, h256, mul_comm h, ← Nat.mul_add_lt_is_or (by omega) h]

/-- The `averageAccelFIFO` running sums equal per-axis `Finset.range` sums
of the decoded samples. -/
theorem fifoSums_eq (fifo : Nat → Nat) (n : Nat) :
    fifoSums fifo n =
      (∑ i ∈ Finset.range n, fifoSample fifo (i * 6),
       ∑ i ∈ Finset.range n, fifoSample fifo (i * 6 + 2),
       ∑ i ∈ Finset.range n, fifoSample fifo (i * 6 + 4)) := by
  induction n with
  | zero => simp [fifoSums]
  | succ k ih => simp [fifoSums, ih, Finset.sum_range_succ]

/-! ## Claim theorems -/

/-- Claim C2: for `slots ≥ 1` and any FIFO contents, `averageAccelFIFO`
sets each of `accelX`/`accelY`/`accelZ` to the acceleration scale times the
truncating integer quotient by `slots` of the sum, over the first `slots`
FIFO entries, of that entry's axis sample negated by
bitwise-complement-plus-one on the 16-bit value `(high << 8) | low`. -/
theorem averageAccelFIFO_spec (st : LMS303State) (slots : Int) (hs : 1 ≤ slots) :
    (averageAccelFIFO st slots).2.accelX =
      st.accelScale *
        ((Int.tdiv (∑ i ∈ Finset.range slots.toNat, fifoSample st.accelFIFO (i * 6)) slots : Int) : ℚ) ∧
    (averageAccelFIFO st slots).2.accelY =
      st.accelScale *
        ((Int.tdiv (∑ i ∈ Finset.range slots.toNat, fifoSample st.accelFIFO (i * 6 + 2)) slots : Int) : ℚ) ∧
    (averageAccelFIFO st slots).2.accelZ =
      st.accelScale *
        ((Int.tdiv (∑ i ∈ Finset.range slots.toNat, fifoSample st.accelFIFO (i * 6 + 4)) slots : Int) : ℚ) := by
  have hn : ¬ slots ≤ 0 := by omega
  simp only [averageAccelFIFO, hn, if_false, fifoSums_eq, convertAcceleration]
  exact ⟨mul_comm _ _, mul_comm _ _, mul_comm _ _⟩

/-- Witness for C2 at one slot over the all-zero state. -/
theorem averageAccelFIFO_spec_witness :
    (1 : Int) ≤ 1 ∧
    (averageAccelFIFO initState 1).2.accelX =
      initState.accelScale *
        ((Int.tdiv (∑ i ∈ Finset.range (1 : Int).toNat, fifoSample initState.accelFIFO (i * 6)) 1 : Int) : ℚ) :=
  ⟨by norm_num, (averageAccelFIFO_spec initState 1 (by norm_num)).1⟩

/-- Claim C3 counterexample: the claim says the raw temperature value
`0xFFF` (bit 11 set) maps to exactly 24.875 °C.  The code computes the
magnitude as `0xFFF ^ 0x0FFF = 0` (one's complement without the `+1` of a
true two's-complement negation), so it returns exactly 25 °C, not
24.875 °C. -/
theorem getTemperature_raw_fff_is_25 :
    getTemperature
        (fun a => if a = REG_TEMP_OUT_H then 0x0F else if a = REG_TEMP_OUT_L then 0xFF else 0) = 25 ∧
    (25 : ℚ) ≠ 24.875 := by
  constructor
  · simp only [getTemperature, REG_TEMP_OUT_H, REG_TEMP_OUT_L]
    simp
    norm_num [toInt16]
  · norm_num

/-- Claim C3 as amended: the raw 12-bit field `0x000` maps to exactly
25 °C and the raw value `0xFFF` also maps to exactly 25 °C (the XOR with
`0x0FFF` yields magnitude 0); in general, for a register pair whose 16-bit
value `v = high * 256 + low` has its upper four bits clear, the code XORs
`v` with `0x0FFF` for the magnitude and flips the sign when bit 11 is set,
masks `v` to 12 bits otherwise, and returns `sign * (magnitude / 8) + 25`. -/
theorem getTemperature_amended (h l : Nat) (hh : h < 16) (hl : l < 256) :
    (getTemperature
        (fun a => if a = REG_TEMP_OUT_H then h else if a = REG_TEMP_OUT_L then l else 0) =
      if (h * 256 + l) &&& 0x0800 ≠ 0 then
        -(((((h * 256 + l) ^^^ 0x0FFF) : Nat) : ℚ) / 8) + 25
      else
        ((((h * 256 + l) &&& 0x0FFF : Nat) : ℚ) / 8) + 25) ∧
    getTemperature (fun _ => 0) = 25 ∧
    getTemperature
        (fun a => if a = REG_TEMP_OUT_H then 0x0F else if a = REG_TEMP_OUT_L then 0xFF else 0) = 25 := by
  refine ⟨?_, ?_, ?_⟩
  · have hv : (h <<< 8) ||| l = h * 256 + l := shiftLeft_or_eq_add h l hl
    have hvlt : h * 256 + l < 4096 := by omega
    have hx : (h * 256 + l) ^^^ 0x0FFF < 4096 :=
      Nat.xor_lt_two_pow (n := 12) (by omega) (by norm_num)
    have ha : (h * 256 + l) &&& 0x0FFF < 4096 := by
      calc (h * 256 + l) &&& 0x0FFF ≤ 0x0FFF := Nat.and_le_right
        _ < 4096 := by norm_num
    simp only [getTemperature, REG_TEMP_OUT_H, REG_TEMP_OUT_L]
    norm_num
    rw [Nat.mod_eq_of_lt (by omega : h < 256), Nat.mod_eq_of_lt hl, hv]
    split_ifs with hc
    · rw [toInt16, if_pos (by omega), Nat.mod_eq_of_lt (by omega)]
      push_cast
      ring
    · rw [toInt16, if_pos (by omega), Nat.mod_eq_of_lt (by omega)]
      push_cast
      ring
  · simp only [getTemperature, REG_TEMP_OUT_H, REG_TEMP_OUT_L]
    simp
    norm_num [toInt16]
  · simp only [getTemperature, REG_TEMP_OUT_H, REG_TEMP_OUT_L]
    simp
    norm_num [toInt16]

/-- Witness for the amended C3 at the raw pair `(0x08, 0x01)`,
i.e. raw value `0x0801` (bit 11 set). -/
theorem getTemperature_amended_witness :
    ((0x08 : Nat) < 16 ∧ (0x01 : Nat) < 256) ∧
    (getTemperature
        (fun a => if a = REG_TEMP_OUT_H then 0x08 else if a = REG_TEMP_OUT_L then 0x01 else 0) =
      if (0x08 * 256 + 0x01) &&& 0x0800 ≠ 0 then
        -(((((0x08 * 256 + 0x01) ^^^ 0x0FFF) : Nat) : ℚ) / 8) + 25
      else
        ((((0x08 * 256 + 0x01) &&& 0x0FFF : Nat) : ℚ) / 8) + 25) :=
  ⟨⟨by decide, by decide⟩, (getTemperature_amended 0x08 0x01 (by decide) (by decide)).1⟩

/-- Claim C5: the spec says `writeI2CDeviceByte` and `readI2CDevice` close
the bus handle on every exit path.  The code does not: after a successful
`open`, a failed `ioctl` address select makes both functions return with the
descriptor still open, and a failed 2-byte `write` does the same in
`writeI2CDeviceByte`.  This theorem evaluates the model at those failing
outcomes and exhibits the leaked handle (opened but never closed), against
the spec's scoped acquisition/release discipline. -/
theorem i2c_handle_leak_on_failure_paths :
    (writeI2CDeviceByte { openOk := true, ioctlOk := false, writeOk := true, readOk := true }).opened = true ∧
    (writeI2CDeviceByte { openOk := true, ioctlOk := false, writeOk := true, readOk := true }).closed = false ∧
    (writeI2CDeviceByte { openOk := true, ioctlOk := true, writeOk := false, readOk := true }).opened = true ∧
    (writeI2CDeviceByte { openOk := true, ioctlOk := true, writeOk := false, readOk := true }).closed = false ∧
    (readI2CDevice { openOk := true, ioctlOk := false, writeOk := true, readOk := true }).opened = true ∧
    (readI2CDevice { openOk := true, ioctlOk := false, writeOk := true, readOk := true }).closed = false := by
  decide

/-- Claim C6: the spec says `readI2CDevice` reports a `ReadFailed` error
whenever the transport read does not deliver the requested byte count.  The
code only logs the failure and falls through to `close(file); return 0;`, so
the caller sees success.  This theorem evaluates the model at an execution
whose read fails and shows the returned code is 0 (success), refuting the
claimed error propagation. -/
theorem readI2CDevice_success_despite_read_failure :
    (readI2CDevice { openOk := true, ioctlOk := true, writeOk := true, readOk := false }).ret = 0 := by
  decide

/-- Claim C7: `enableTempSensor` writes back exactly the previously read
`CTRL5` byte with bit 7 set: the written value is `v ||| 0x80`, its bit 7 is
set, and every other bit equals the corresponding bit of `v`. -/
theorem enableTempSensor_sets_only_bit7 (v : Nat) (hv : v < 256) :
    enableTempSensor v = v ||| 0x80 ∧
    (enableTempSensor v).testBit 7 = true ∧
    ∀ i, i ≠ 7 → (enableTempSensor v).testBit i = v.testBit i := by
  have hmod : v % 256 = v := Nat.mod_eq_of_lt hv
  have heq : enableTempSensor v = v ||| 0x80 := by
    simp [enableTempSensor, hmod]
  have h128 : (0x80 : Nat) = 2 ^ 7 := by norm_num
  refine ⟨heq, ?_, ?_⟩
  · rw [heq, Nat.testBit_or, h128, Nat.testBit_two_pow_self, Bool.or_true]
  · intro i hi
    rw [heq, Nat.testBit_or, h128, Nat.testBit_two_pow_of_ne (fun h => hi h.symm),
      Bool.or_false]

/-- Witness for C7 at the concrete prior register value `0x35`. -/
theorem enableTempSensor_sets_only_bit7_witness :
    (0x35 : Nat) < 256 ∧ (enableTempSensor 0x35).testBit 3 = (0x35 : Nat).testBit 3 :=
  ⟨by decide, (enableTempSensor_sets_only_bit7 0x35 (by decide)).2.2 3 (by decide)⟩

/-- Claim C9: `readAccelFIFO` returns `(fifoSrc & 0x0F) + 1`, which always
lies between 1 and 16, so feeding its result into `averageAccelFIFO` (as
`readFullSensorState` does in stream mode) can never reach the
divide-by-zero error branch: the averaging call returns 0, not the error
code 1. -/
theorem readAccelFIFO_count_in_range (st st2 : LMS303State) (env : BusEnv) :
    (readAccelFIFO st env).1 = ((env.regs REG_FIFO_SRC % 256 &&& 0x0F : Nat) : Int) + 1 ∧
    1 ≤ (readAccelFIFO st env).1 ∧
    (readAccelFIFO st env).1 ≤ 16 ∧
    (averageAccelFIFO st2 (readAccelFIFO st env).1).1 = 0 := by
  have hb : env.regs REG_FIFO_SRC % 256 &&& 0x0F ≤ 15 := Nat.and_le_right
  have hpos : ¬ (((env.regs REG_FIFO_SRC % 256 &&& 0x0F : Nat) : Int) + 1 ≤ 0) := by omega
  have heq : (readAccelFIFO st env).1 = ((env.regs REG_FIFO_SRC % 256 &&& 0x0F : Nat) : Int) + 1 := rfl
  refine ⟨heq, ?_, ?_, ?_⟩
  · rw [heq]; omega
  · rw [heq]; omega
  · rw [heq]
    simp only [averageAccelFIFO, hpos, if_false]

/-- Claim C10: `setAccelFIFOMode` caches the requested mode only when the
mode read back from the device decodes to the requested one; on mismatch the
cached mode is left unchanged; the function returns 0 (success) in both
cases. -/
theorem setAccelFIFOMode_cache_update (st : LMS303State) (mode : LMS303_ACCEL_FIFO_MODE)
    (readBack : Nat) :
    (setAccelFIFOMode st mode readBack).1 = 0 ∧
    (setAccelFIFOMode st mode readBack).2.accelFIFOMode =
      (if getAccelFIFOMode readBack = mode then mode else st.accelFIFOMode) := by
  by_cases h : getAccelFIFOMode readBack = mode <;> simp [setAccelFIFOMode, h]

/-- Claim C4: with the register write succeeding, each valid accelerometer
scale selector stores its documented constant (0.000061, 0.000122, 0.000183,
0.000244, 0.000732) and each valid magnetometer selector stores its constant
(0.00008, 0.00016, 0.00032, 0.000479), with return value 0; an input outside
the valid enum values zeroes the scale factor and returns the error code 1
whatever the write outcome. -/
theorem setScale_constants (st : LMS303State) (writeOk : Bool) :
    ((setAccelScale st LMS303_ACCEL_SCALE.SCALE_ACCEL_2g true).2.accelScale = 61 / 1000000 ∧
     (setAccelScale st LMS303_ACCEL_SCALE.SCALE_ACCEL_2g true).1 = 0) ∧
    ((setAccelScale st LMS303_ACCEL_SCALE.SCALE_ACCEL_4g true).2.accelScale = 122 / 1000000 ∧
     (setAccelScale st LMS303_ACCEL_SCALE.SCALE_ACCEL_4g true).1 = 0) ∧
    ((setAccelScale st LMS303_ACCEL_SCALE.SCALE_ACCEL_6g true).2.accelScale = 183 / 1000000 ∧
     (setAccelScale st LMS303_ACCEL_SCALE.SCALE_ACCEL_6g true).1 = 0) ∧
    ((setAccelScale st LMS303_ACCEL_SCALE.SCALE_ACCEL_8g true).2.accelScale = 244 / 1000000 ∧
     (setAccelScale st LMS303_ACCEL_SCALE.SCALE_ACCEL_8g true).1 = 0) ∧
    ((setAccelScale st LMS303_ACCEL_SCALE.SCALE_ACCEL_16g true).2.accelScale = 732 / 1000000 ∧
     (setAccelScale st LMS303_ACCEL_SCALE.SCALE_ACCEL_16g true).1 = 0) ∧
    ((setAccelScale st LMS303_ACCEL_SCALE.SCALE_ACCEL_INVALID writeOk).2.accelScale = 0 ∧
     (setAccelScale st LMS303_ACCEL_SCALE.SCALE_ACCEL_INVALID writeOk).1 = 1) ∧
    ((setMagScale st LMS303_MAG_SCALE.SCALE_MAG_2gauss true).2.magScale = 8 / 100000 ∧
     (setMagScale st LMS303_MAG_SCALE.SCALE_MAG_2gauss true).1 = 0) ∧
    ((setMagScale st LMS303_MAG_SCALE.SCALE_MAG_4gauss true).2.magScale = 16 / 100000 ∧
     (setMagScale st LMS303_MAG_SCALE.SCALE_MAG_4gauss true).1 = 0) ∧
    ((setMagScale st LMS303_MAG_SCALE.SCALE_MAG_8gauss true).2.magScale = 32 / 100000 ∧
     (setMagScale st LMS303_MAG_SCALE.SCALE_MAG_8gauss true).1 = 0) ∧
    ((setMagScale st LMS303_MAG_SCALE.SCALE_MAG_12gauss true).2.magScale = 479 / 1000000 ∧
     (setMagScale st LMS303_MAG_SCALE.SCALE_MAG_12gauss true).1 = 0) ∧
    ((setMagScale st LMS303_MAG_SCALE.SCALE_MAG_INVALID writeOk).2.magScale = 0 ∧
     (setMagScale st LMS303_MAG_SCALE.SCALE_MAG_INVALID writeOk).1 = 1) := by
  cases writeOk <;> simp [setAccelScale, setMagScale]

/-- Claim C8: `calculatePitchAndRoll` computes
`pitch = degrees(atan(x / sqrt(y·y + z·z)))` and
`roll = degrees(atan(y / sqrt(x·x + z·z)))` whenever the respective
denominator is non-degenerate; for acceleration `(0, 0, 1)` both angles are
0°, and for `(1, 0, 0)` pitch is 90° and roll is 0°. -/
theorem calculatePitchAndRoll_spec :
    (∀ st : LMS303State,
      (st.accelY : ℝ) * st.accelY + (st.accelZ : ℝ) * st.accelZ ≠ 0 →
      (calculatePitchAndRoll st).pitch =
        180 * Real.arctan ((st.accelX : ℝ) /
          Real.sqrt ((st.accelY : ℝ) * st.accelY + (st.accelZ : ℝ) * st.accelZ)) / Real.pi) ∧
    (∀ st : LMS303State,
      (st.accelX : ℝ) * st.accelX + (st.accelZ : ℝ) * st.accelZ ≠ 0 →
      (calculatePitchAndRoll st).roll =
        180 * Real.arctan ((st.accelY : ℝ) /
          Real.sqrt ((st.accelX : ℝ) * st.accelX + (st.accelZ : ℝ) * st.accelZ)) / Real.pi) ∧
    (calculatePitchAndRoll { initState with accelX := 0, accelY := 0, accelZ := 1 }).pitch = 0 ∧
    (calculatePitchAndRoll { initState with accelX := 0, accelY := 0, accelZ := 1 }).roll = 0 ∧
    (calculatePitchAndRoll { initState with accelX := 1, accelY := 0, accelZ := 0 }).pitch = 90 ∧
    (calculatePitchAndRoll { initState with accelX := 1, accelY := 0, accelZ := 0 }).roll = 0 := by
  have hgen : ∀ num S : ℝ, S ≠ 0 → 0 ≤ S →
      atanIEEE num (Real.sqrt S) = Real.arctan (num / Real.sqrt S) := by
    intro num S hS hS0
    have hpos : Real.sqrt S ≠ 0 :=
      ne_of_gt (Real.sqrt_pos.mpr (lt_of_le_of_ne hS0 (Ne.symm hS)))
    simp [atanIEEE, hpos]
  refine ⟨?_, ?_, ?_, ?_, ?_, ?_⟩
  · intro st h
    have h0 : (0 : ℝ) ≤ (st.accelY : ℝ) * st.accelY + (st.accelZ : ℝ) * st.accelZ :=
      add_nonneg (mul_self_nonneg _) (mul_self_nonneg _)
    simp only [calculatePitchAndRoll]
    rw [hgen _ _ h h0]
  · intro st h
    have h0 : (0 : ℝ) ≤ (st.accelX : ℝ) * st.accelX + (st.accelZ : ℝ) * st.accelZ :=
      add_nonneg (mul_self_nonneg _) (mul_self_nonneg _)
    simp only [calculatePitchAndRoll]
    rw [hgen _ _ h h0]
  · simp [calculatePitchAndRoll, atanIEEE]
  · simp [calculatePitchAndRoll, atanIEEE]
  · simp only [calculatePitchAndRoll, atanIEEE]
    norm_num
    field_simp
    ring
  · simp [calculatePitchAndRoll, atanIEEE]

/-- Witness for C8: the general pitch formula applied to the concrete
acceleration vector `(0, 0, 1)`. -/
theorem calculatePitchAndRoll_spec_witness :
    ((((0 : ℚ) : ℝ) * (0 : ℚ) + ((1 : ℚ) : ℝ) * (1 : ℚ) ≠ 0) ∧
      (calculatePitchAndRoll { initState with accelX := 0, accelY := 0, accelZ := 1 }).pitch =
        180 * Real.arctan
          ((({ initState with accelX := 0, accelY := 0, accelZ := 1 } : LMS303State).accelX : ℝ) /
            Real.sqrt
              ((({ initState with accelX := 0, accelY := 0, accelZ := 1 } : LMS303State).accelY : ℝ) *
                  ({ initState with accelX := 0, accelY := 0, accelZ := 1 } : LMS303State).accelY +
                (({ initState with accelX := 0, accelY := 0, accelZ := 1 } : LMS303State).accelZ : ℝ) *
                  ({ initState with accelX := 0, accelY := 0, accelZ := 1 } : LMS303State).accelZ)) /
          Real.pi) :=
  ⟨by norm_num,
   calculatePitchAndRoll_spec.1 { initState with accelX := 0, accelY := 0, accelZ := 1 }
     (by norm_num)⟩

/-! ## Claim C1: the poll on identity-register mismatch -/

/-- Both branches of `averageAccelFIFO` leave the magnetism, temperature,
pitch, roll and raw-buffer fields untouched: the function only writes the
three acceleration fields. -/
theorem averageAccelFIFO_preserves (st : LMS303State) (slots : Int) :
    (averageAccelFIFO st slots).2.magX = st.magX ∧
    (averageAccelFIFO st slots).2.magY = st.magY ∧
    (averageAccelFIFO st slots).2.magZ = st.magZ ∧
    (averageAccelFIFO st slots).2.celsius = st.celsius ∧
    (averageAccelFIFO st slots).2.pitch = st.pitch ∧
    (averageAccelFIFO st slots).2.roll = st.roll ∧
    (averageAccelFIFO st slots).2.dataBuffer = st.dataBuffer := by
  unfold averageAccelFIFO
  split_ifs <;> simp

/-- The stream-mode read phase leaves magnetism, temperature, pitch and roll
untouched, and deposits the transport's identity byte at `REG_WHO_AM_I` in
the raw buffer. -/
theorem streamPoll_preserves (st : LMS303State) (env : BusEnv) :
    (streamPoll st env).magX = st.magX ∧
    (streamPoll st env).magY = st.magY ∧
    (streamPoll st env).magZ = st.magZ ∧
    (streamPoll st env).celsius = st.celsius ∧
    (streamPoll st env).pitch = st.pitch ∧
    (streamPoll st env).roll = st.roll ∧
    (streamPoll st env).dataBuffer REG_WHO_AM_I = env.regs REG_WHO_AM_I % 256 := by
  refine ⟨?_, ?_, ?_, ?_, ?_, ?_, ?_⟩ <;>
  · simp only [streamPoll, readAccelFIFO, averageAccelFIFO]
    split_ifs <;>
      simp [busFill, REG_WHO_AM_I, REG_TEMP_OUT_L, REG_OUT_Z_H_M, REG_INT_CTRL_M,
        REG_STATUS_A, REG_FIFO_CTRL, LMS303_I2C_BUFFER]

/-- The bypass-mode read phase leaves magnetism, temperature, pitch and roll
untouched, and deposits the transport's identity byte at `REG_WHO_AM_I` in
the raw buffer. -/
theorem bypassPoll_preserves (st : LMS303State) (env : BusEnv) :
    (bypassPoll st env).magX = st.magX ∧
    (bypassPoll st env).magY = st.magY ∧
    (bypassPoll st env).magZ = st.magZ ∧
    (bypassPoll st env).celsius = st.celsius ∧
    (bypassPoll st env).pitch = st.pitch ∧
    (bypassPoll st env).roll = st.roll ∧
    (bypassPoll st env).dataBuffer REG_WHO_AM_I = env.regs REG_WHO_AM_I % 256 := by
  refine ⟨rfl, rfl, rfl, rfl, rfl, rfl, ?_⟩
  simp [bypassPoll, busFill, REG_WHO_AM_I, LMS303_I2C_BUFFER]

/-- Claim C1 counterexample: the claim says a poll whose identity byte
differs from `0x49` leaves all `PhysicalReading` fields, including the
acceleration components, unchanged.  In the code the accelerometer output is
converted (bypass mode) or FIFO-averaged (stream mode) before the identity
check runs, so `accelX` changes even though the poll returns the sync-error
code: here the poll returns 1 yet `accelX` moves from 0 to 257. -/
theorem readFullSensorState_mutates_accel_on_syncError :
    (readFullSensorState { initState with accelScale := 1 }
        { regs := fun _ => 1, fifo := fun _ => 0 }).1 = 1 ∧
    (readFullSensorState { initState with accelScale := 1 }
        { regs := fun _ => 1, fifo := fun _ => 0 }).2.accelX ≠
      ({ initState with accelScale := 1 } : LMS303State).accelX := by
  have hmode : ({ initState with accelScale := 1 } : LMS303State).accelFIFOMode ≠
      LMS303_ACCEL_FIFO_MODE.ACCEL_FIFO_STREAM := by
    simp [initState]
  constructor
  · simp [readFullSensorState, hmode, pollFinish, bypassPoll, busFill, initState,
      REG_WHO_AM_I, LMS303_I2C_BUFFER]
  · simp [readFullSensorState, hmode, pollFinish, bypassPoll, busFill, initState,
      convertAccelerationPair, toInt16, REG_WHO_AM_I, LMS303_I2C_BUFFER,
      REG_OUT_X_H_A, REG_OUT_X_L_A]

/-- Claim C1 as amended: a poll whose transport identity byte differs from
`0x49` returns the sync-error code 1 and leaves the magnetism components,
the temperature and the pitch/roll angles unchanged; the acceleration
components, however, are recomputed before the identity check and are not
covered by the unchanged-fields guarantee. -/
theorem readFullSensorState_syncError (st : LMS303State) (env : BusEnv)
    (h : env.regs REG_WHO_AM_I % 256 ≠ 0x49) :
    (readFullSensorState st env).1 = 1 ∧
    (readFullSensorState st env).2.magX = st.magX ∧
    (readFullSensorState st env).2.magY = st.magY ∧
    (readFullSensorState st env).2.magZ = st.magZ ∧
    (readFullSensorState st env).2.celsius = st.celsius ∧
    (readFullSensorState st env).2.pitch = st.pitch ∧
    (readFullSensorState st env).2.roll = st.roll := by
  unfold readFullSensorState
  by_cases hm : st.accelFIFOMode = LMS303_ACCEL_FIFO_MODE.ACCEL_FIFO_STREAM
  · obtain ⟨h1, h2, h3, h4, h5, h6, h7⟩ := streamPoll_preserves st env
    have hcond : (streamPoll st env).dataBuffer REG_WHO_AM_I ≠ 0x49 := by
      rw [h7]; exact h
    rw [if_pos hm]
    unfold pollFinish
    rw [if_pos hcond]
    exact ⟨rfl, h1, h2, h3, h4, h5, h6⟩
  · obtain ⟨h1, h2, h3, h4, h5, h6, h7⟩ := bypassPoll_preserves st env
    have hcond : (bypassPoll st env).dataBuffer REG_WHO_AM_I ≠ 0x49 := by
      rw [h7]; exact h
    rw [if_neg hm]
    unfold pollFinish
    rw [if_pos hcond]
    exact ⟨rfl, h1, h2, h3, h4, h5, h6⟩

/-- Witness for the amended C1 at a transport that answers every register
read with a zero byte. -/
theorem readFullSensorState_syncError_witness :
    ((0 : Nat) % 256 ≠ 0x49 ∧
      (readFullSensorState initState { regs := fun _ => 0, fifo := fun _ => 0 }).1 = 1 ∧
      (readFullSensorState initState { regs := fun _ => 0, fifo := fun _ => 0 }).2.magX =
        initState.magX) := by
  have happ := readFullSensorState_syncError initState
    { regs := fun _ => 0, fifo := fun _ => 0 } (by decide)
  exact ⟨by decide, happ.1, happ.2.1⟩

end LMS303
